import Mathlib

/-!
Shallow embedding of `src/app/api/create-user/route.ts`, the Cakto payment
webhook receiver: plan catalog, expiration-date computation (JavaScript
`Date.setMonth` calendar semantics in UTC), welcome-email construction, and
the `POST` handler modelled as a pure function from the parsed request body
and the behaviour of the external collaborators (auth service, Gmail API) to
an HTTP response together with the ordered trace of collaborator operations.
-/

namespace Enem

/-- Calendar timestamp in UTC, mirroring the fields of a JavaScript `Date`:
`month` is 0-based (January = 0) as in `Date.getMonth`, `day` is 1-based. -/
structure DateTime where
  year : Int
  month : Nat
  day : Nat
  hour : Nat
  minute : Nat
  second : Nat
  ms : Nat
deriving DecidableEq, Repr

/-- Gregorian leap-year test, as used by JavaScript `Date` normalization. -/
def isLeap (y : Int) : Bool :=
  y % 4 == 0 && (y % 100 != 0 || y % 400 == 0)

/-- Number of days of month `m` (0-based) in year `y`. -/
def daysInMonth (y : Int) (m : Nat) : Nat :=
  if m = 1 then (if isLeap y then 29 else 28)
  else if m = 3 ∨ m = 5 ∨ m = 8 ∨ m = 10 then 30
  else 31

/-- Embedding of `calculateExpirationDate` (route.ts lines 24-28):
`new Date(startDate)` followed by `setMonth(getMonth() + months)`.
JavaScript `setMonth` keeps the day-of-month and normalizes: the month index
is reduced modulo 12 with carry into the year, and a day-of-month exceeding
the length of the target month overflows into the following month (at most
one overflow step, since 31 - 28 = 3 < 28). Time-of-day is untouched. -/
def calculateExpirationDate (startDate : DateTime) (months : Nat) : DateTime :=
  let total := startDate.month + months
  let y : Int := startDate.year + Int.ofNat (total / 12)
  let m := total % 12
  let dim := daysInMonth y m
  if startDate.day ≤ dim then
    ⟨y, m, startDate.day, startDate.hour, startDate.minute, startDate.second, startDate.ms⟩
  else if m = 11 then
    ⟨y + 1, 0, startDate.day - dim, startDate.hour, startDate.minute, startDate.second, startDate.ms⟩
  else
    ⟨y, m + 1, startDate.day - dim, startDate.hour, startDate.minute, startDate.second, startDate.ms⟩

/-- Validity of a calendar timestamp: the value a JavaScript `Date` can hold
after normalization (month index below 12, day within the month). -/
def DateTime.Valid (d : DateTime) : Prop :=
  d.month < 12 ∧ 1 ≤ d.day ∧ d.day ≤ daysInMonth d.year d.month

/-- Embedding of the `planMapping` object literal (route.ts lines 7-12):
exact-key lookup in a fixed four-entry table from Cakto product name to
`(plan, durationInMonths)`. A JavaScript object lookup with a key not among
the four literal keys yields `undefined`, modelled as `none`. -/
def planMapping (name : String) : Option (String × Nat) :=
  if name = "Plano Mensal" then some ("mensal", 1)
  else if name = "Plano 6 Meses" then some ("6meses", 6)
  else if name = "Plano Anual" then some ("anual", 12)
  else if name = "Produto Teste" then some ("anual", 12)
  else none

/-- Customer object of the webhook payload (`data.customer`). In JavaScript
an absent `email`/`name` and an empty string are both falsy and take the same
branch at line 101, so both are encoded as `""`; `phone` and `docNumber` keep
absence explicit because `customer.phone || ''` observes it (lines 134-135). -/
structure Customer where
  email : String
  name : String
  phone : Option String
  docNumber : Option String
deriving DecidableEq, Repr

/-- Product reference of the payload (`data.product`); `product?.name` may be
absent. -/
structure Product where
  name : Option String
deriving DecidableEq, Repr

/-- The `data` object of the webhook payload; `paidAt` is the timestamp
parsed by `new Date(paidAt)` at line 112. -/
structure EventData where
  customer : Option Customer
  paidAt : Option DateTime
  product : Option Product
deriving DecidableEq, Repr

/-- A parsed webhook body after the line-91 unwrap (`Array.isArray(body) ?
body[0] : body`): the event name and the optional `data` object. -/
structure Webhook where
  event : String
  data : Option EventData
deriving DecidableEq, Repr

/-- User record held by the auth service (the `User` type): the account the
directory owns. `planExpiresAt` is kept as a timestamp value. -/
structure Account where
  id : String
  email : String
  password : String
  nome : String
  phone : String
  cpf : String
  birthDate : String
  role : String
  isActive : Bool
  plan : String
  planExpiresAt : DateTime
deriving DecidableEq, Repr

/-- The `newUserPayload` record built at lines 130-141 (`Omit<User, 'id' |
'createdAt' | 'updatedAt'>`). -/
structure NewUser where
  email : String
  password : String
  nome : String
  phone : String
  cpf : String
  birthDate : String
  role : String
  isActive : Bool
  plan : String
  planExpiresAt : DateTime
deriving DecidableEq, Repr

/-- The patch passed to `authService.updateUser` at lines 121-125: exactly
the three keys `isActive`, `plan`, `planExpiresAt`. -/
structure UpdatePatch where
  isActive : Bool
  plan : String
  planExpiresAt : DateTime
deriving DecidableEq, Repr

/-- Effect of the directory applying an `UpdatePatch` to an account: only the
three patched keys change. -/
def applyPatch (a : Account) (p : UpdatePatch) : Account :=
  { a with isActive := p.isActive, plan := p.plan, planExpiresAt := p.planExpiresAt }

/-- Result of `authService.login` as the route reads it (lines 116-117):
a `success` flag and an optional `user`. -/
structure LoginResult where
  success : Bool
  user : Option Account
deriving DecidableEq, Repr

/-- Result of `authService.register` as the route reads it (lines 143-152). -/
structure RegisterResult where
  success : Bool
  user : Option Account
  message : String
deriving DecidableEq, Repr

/-- Behaviour of the external collaborators during one request: the outcome
of the single `login` call, of the single `register` call, whether the Gmail
credentials are configured (line 32), and whether the Gmail send succeeds
(lines 38-79). -/
structure Backend where
  loginResult : LoginResult
  registerResult : RegisterResult
  emailEnvOk : Bool
  emailSendOk : Bool
deriving DecidableEq, Repr

/-- Outcome of one `sendWelcomeEmail` call: skipped for missing credentials
(line 34), sent (line 81), or failed with the error logged and swallowed by
the `catch` at lines 82-84. In every case the function returns normally. -/
inductive EmailOutcome where
  | skippedNoConfig
  | sent
  | failedLogged
deriving DecidableEq, Repr

/-- Embedding of `sendWelcomeEmail` (route.ts lines 31-85) as the outcome it
reaches; the function never throws to its caller, so `POST` observes nothing
of this value. -/
def sendWelcomeEmail (envOk sendOk : Bool) : EmailOutcome :=
  if !envOk then .skippedNoConfig
  else if sendOk then .sent
  else .failedLogged

/-- Template-literal text of lines 44-60 before the interpolated `user.nome`. -/
def emailBodyPiece0 : String :=
  "\n      <div style=\"font-family: Arial, sans-serif; line-height: 1.6; color: #333;\">\n        <h2>Olá, "

/-- Template-literal text between `user.nome` and `user.email`. -/
def emailBodyPiece1 : String :=
  "!</h2>\n        <p>Seu pagamento foi confirmado e seu acesso à plataforma EnemPro foi liberado!</p>\n        <h3>Suas credenciais de acesso:</h3>\n        <ul>\n          <li><strong>Email:</strong> "

/-- Template-literal text between `user.email` and `user.password`. -/
def emailBodyPiece2 : String :=
  "</li>\n          <li><strong>Senha:</strong> "

/-- Template-literal text between `user.password` and the app URL. -/
def emailBodyPiece3 : String :=
  "</li>\n        </ul>\n        <p>Você pode acessar a plataforma através do link abaixo:</p>\n        <a href=\""

/-- Template-literal text after the app URL. -/
def emailBodyPiece4 : String :=
  "/login\" style=\"display: inline-block; padding: 10px 20px; background-color: #007bff; color: white; text-decoration: none; border-radius: 5px;\">Acessar Plataforma</a>\n        <p>Recomendamos que você altere sua senha no primeiro acesso.</p>\n        <br>\n        <p>Atenciosamente,</p>\n        <p><strong>Equipe EnemPro</strong></p>\n      </div>\n    "

/-- The HTML body built at lines 44-60, as the concatenation of the template
literal pieces with the interpolated `user.nome`, `user.email`,
`user.password` and app URL. -/
def emailBody (u : NewUser) (appUrl : String) : String :=
  emailBodyPiece0 ++ u.nome ++ emailBodyPiece1 ++ u.email ++ emailBodyPiece2 ++
    u.password ++ emailBodyPiece3 ++ appUrl ++ emailBodyPiece4

/-- One collaborator operation observed during a request. `findByEmail` is
the dedicated directory lookup of the spec's AccountDirectory interface; the
route never performs it, which is what some theorems establish. -/
inductive DirOp where
  | login (email password : String)
  | findByEmail (email : String)
  | register (payload : NewUser)
  | update (id : String) (patch : UpdatePatch)
  | sendEmail (payload : NewUser) (outcome : EmailOutcome)
deriving DecidableEq, Repr

/-- Whether an operation mutates directory state (create or update). -/
def DirOp.isMutation : DirOp → Bool
  | .register _ => true
  | .update _ _ => true
  | _ => false

/-- The `(plan, planExpiresAt)` pair a mutation operation writes. -/
def DirOp.write? : DirOp → Option (String × DateTime)
  | .register p => some (p.plan, p.planExpiresAt)
  | .update _ patch => some (patch.plan, patch.planExpiresAt)
  | _ => none

/-- HTTP response produced by the route: status code, the `success` flag, the
`message` string, and the optional `userId`. -/
structure Response where
  status : Nat
  success : Bool
  message : String
  userId : Option String
deriving DecidableEq, Repr

/-- Processing of a recognized, paid event (route.ts lines 100-154), from the
customer check to the create-or-update branch. Returns the response and the
ordered trace of collaborator operations. -/
def processEvent (d : EventData) (paidAt : DateTime) (B : Backend) :
    Response × List DirOp :=
  match d.customer with
  | none => (⟨400, false, "Dados do cliente ausentes.", none⟩, [])
  | some c =>
    if c.email = "" ∨ c.name = "" then
      (⟨400, false, "Dados do cliente ausentes.", none⟩, [])
    else
      match (d.product.bind Product.name).bind planMapping with
      | none =>
        (⟨400, false,
          "Plano \"" ++ ((d.product.bind Product.name).getD "undefined") ++ "\" não configurado.",
          none⟩, [])
      | some (plan, durationInMonths) =>
        let expirationDate := calculateExpirationDate paidAt durationInMonths
        let loginResult := B.loginResult
        let existingUser := if loginResult.success then loginResult.user else none
        match existingUser with
        | some u =>
          (⟨200, true, "Assinatura de usuário existente foi renovada/atualizada.", none⟩,
           [.login c.email "", .update u.id ⟨true, plan, expirationDate⟩])
        | none =>
          let newUserPayload : NewUser :=
            ⟨c.email, "123456", c.name, c.phone.getD "", c.docNumber.getD "",
             "", "user", true, plan, expirationDate⟩
          let result := B.registerResult
          match result.success, result.user with
          | true, some nu =>
            (⟨200, true, "Usuário criado com sucesso.", some nu.id⟩,
             [.login c.email "", .register newUserPayload,
              .sendEmail newUserPayload (sendWelcomeEmail B.emailEnvOk B.emailSendOk)])
          | _, _ =>
            (⟨500, false, "Falha ao registrar usuário: " ++ result.message, none⟩,
             [.login c.email "", .register newUserPayload])

/-- Embedding of the `POST` handler (route.ts lines 88-165) on an
already-parsed body: payload check (line 93), event-type and `paidAt` gate
(line 100), then `processEvent`; anything else is the acknowledged no-op of
lines 157-158. -/
def POST (body : Option Webhook) (B : Backend) : Response × List DirOp :=
  match body with
  | none => (⟨400, false, "Payload inválido.", none⟩, [])
  | some w =>
    match w.data with
    | none => (⟨400, false, "Payload inválido.", none⟩, [])
    | some d =>
      match d.paidAt, w.event == "subscription_created" || w.event == "subscription_renewed" with
      | some paidAt, true => processEvent d paidAt B
      | _, _ =>
        (⟨200, true, "Evento " ++ w.event ++ " recebido, mas não acionou nenhuma ação.", none⟩, [])

/-- Event types the line-100 gate recognizes. -/
def acceptedType (ev : String) : Prop :=
  ev = "subscription_created" ∨ ev = "subscription_renewed"

/-- Request body carrying a fully populated `data` object. -/
def mkBody (ev : String) (c : Customer) (paidAt : DateTime) (pname : String) : Option Webhook :=
  some ⟨ev, some ⟨some c, some paidAt, some ⟨some pname⟩⟩⟩

/-- The `newUserPayload` the route builds for customer `c`, plan `plan` and
expiration `exp` (route.ts lines 130-141). -/
def newPayload (c : Customer) (plan : String) (exp : DateTime) : NewUser :=
  ⟨c.email, "123456", c.name, c.phone.getD "", c.docNumber.getD "", "", "user", true, plan, exp⟩

/-- Concrete directory account used to instantiate scenarios. -/
def sampleAccount : Account :=
  ⟨"u1", "cliente@exemplo.com", "senha-antiga", "Cliente", "", "", "", "user", false,
   "mensal", ⟨2024, 0, 1, 0, 0, 0, 0⟩⟩

/-- Concrete customer used to instantiate scenarios. -/
def sampleCustomer : Customer := ⟨"cliente@exemplo.com", "Cliente", none, none⟩

/-- Timestamp 2024-01-15T00:00:00Z (month 0 = January). -/
def paid20240115 : DateTime := ⟨2024, 0, 15, 0, 0, 0, 0⟩

/-- Backend where the empty-password login probe finds an existing user. -/
def backendExisting : Backend := ⟨⟨true, some sampleAccount⟩, ⟨false, none, ""⟩, true, true⟩

/-- Backend where no account exists and registration succeeds with id u9. -/
def backendNew : Backend :=
  ⟨⟨false, none⟩, ⟨true, some { sampleAccount with id := "u9" }, "ok"⟩, true, true⟩

/-- Backend where no account exists and registration fails with a
uniqueness-conflict message. -/
def backendConflict : Backend :=
  ⟨⟨false, none⟩, ⟨false, none, "Email já cadastrado"⟩, true, true⟩

end Enem

namespace Enem

/-- Helper: when the login probe does not report success together with a
user, the line-117 `existingUser` is `null`. -/
theorem existingUser_none (B : Backend)
    (hno : ¬ (B.loginResult.success = true ∧ B.loginResult.user.isSome)) :
    (if B.loginResult.success then B.loginResult.user else none) = none := by
  cases hls : B.loginResult.success
  · simp
  · cases hlu : B.loginResult.user
    · simp
    · exact absurd ⟨hls, by rw [hlu]; rfl⟩ hno

/-- Helper: a register result that is not a success carrying a user is
either unsuccessful or has no user. -/
theorem registerResult_cases (B : Backend)
    (hrf : ¬ (B.registerResult.success = true ∧ B.registerResult.user.isSome)) :
    B.registerResult.success = false ∨
      (B.registerResult.success = true ∧ B.registerResult.user = none) := by
  cases hrs : B.registerResult.success
  · exact Or.inl rfl
  · cases hru : B.registerResult.user
    · exact Or.inr ⟨rfl, rfl⟩
    · exact absurd ⟨hrs, by rw [hru]; rfl⟩ hrf

/-- C7: plan resolution is an exact-string lookup: each of the four catalog
keys resolves to its configured `(planTier, durationMonths)` pair, and every
other string, case variants included, resolves to `NotFound` (`none`). -/
theorem C7_plan_lookup_exact :
    planMapping "Plano Mensal" = some ("mensal", 1) ∧
    planMapping "Plano 6 Meses" = some ("6meses", 6) ∧
    planMapping "Plano Anual" = some ("anual", 12) ∧
    planMapping "Produto Teste" = some ("anual", 12) ∧
    ∀ s : String, s ≠ "Plano Mensal" → s ≠ "Plano 6 Meses" → s ≠ "Plano Anual" →
      s ≠ "Produto Teste" → planMapping s = none := by
  refine ⟨rfl, rfl, rfl, rfl, ?_⟩
  intro s h1 h2 h3 h4
  simp [planMapping, h1, h2, h3, h4]

/-- Witness for C7 at the lower-case variant of a configured key: resolution
returns `NotFound`, showing there is no case normalization. -/
theorem C7_plan_lookup_exact_witness : planMapping "plano mensal" = none :=
  C7_plan_lookup_exact.2.2.2.2 "plano mensal" (by decide) (by decide) (by decide) (by decide)

/-- C8 counterexample: 2024-02-29T00:00:00Z is a valid timestamp (month 1 is
February), yet adding 12 months lands in March 2025 (month 2), not in the
same month-of-year one year later, because JavaScript `setMonth` overflows
February 29 into March 1 in the non-leap target year. -/
theorem C8_counterexample :
    ((⟨2024, 1, 29, 0, 0, 0, 0⟩ : DateTime).Valid) ∧
    ¬ ((calculateExpirationDate ⟨2024, 1, 29, 0, 0, 0, 0⟩ 12).month =
        (⟨2024, 1, 29, 0, 0, 0, 0⟩ : DateTime).month ∧
       (calculateExpirationDate ⟨2024, 1, 29, 0, 0, 0, 0⟩ 12).year =
        (⟨2024, 1, 29, 0, 0, 0, 0⟩ : DateTime).year + 1) := by
  refine ⟨⟨by decide, by decide, by decide⟩, ?_⟩
  intro h
  have := h.1
  revert this
  decide

/-- C8 amended: `calculateExpirationDate` is deterministic (equal inputs give
equal outputs); on every valid timestamp adding 0 months is the identity; and
adding 12 months lands in the same month-of-year one year later for every
start whose day-of-month exists in that month one year later (which excludes
only February 29 starts, where the date overflows to March 1). -/
theorem C8_expiration_algebra :
    (∀ (d₁ d₂ : DateTime) (m₁ m₂ : Nat), d₁ = d₂ → m₁ = m₂ →
        calculateExpirationDate d₁ m₁ = calculateExpirationDate d₂ m₂) ∧
    (∀ d : DateTime, d.Valid → calculateExpirationDate d 0 = d) ∧
    (∀ d : DateTime, d.month < 12 → d.day ≤ daysInMonth (d.year + 1) d.month →
        (calculateExpirationDate d 12).month = d.month ∧
        (calculateExpirationDate d 12).year = d.year + 1) := by
  refine ⟨?_, ?_, ?_⟩
  · intro d₁ d₂ m₁ m₂ hd hm
    rw [hd, hm]
  · intro d hv
    obtain ⟨hm, _, hday⟩ := hv
    have h1 : d.month / 12 = 0 := Nat.div_eq_of_lt hm
    have h2 : d.month % 12 = d.month := Nat.mod_eq_of_lt hm
    have h0 : (Int.ofNat 0 : Int) = 0 := rfl
    simp only [calculateExpirationDate, Nat.add_zero, h1, h2, h0, add_zero]
    rw [if_pos hday]
  · intro d hm hday
    have h1 : (d.month + 12) / 12 = 1 := by omega
    have h2 : (d.month + 12) % 12 = d.month := by omega
    have h3 : (Int.ofNat 1 : Int) = 1 := rfl
    simp only [calculateExpirationDate, h1, h2, h3]
    rw [if_pos hday]
    exact ⟨rfl, rfl⟩

/-- Witness for the amended C8 at 2024-01-15T00:00:00Z: zero months is the
identity and 12 months lands in January 2025. -/
theorem C8_expiration_algebra_witness :
    calculateExpirationDate paid20240115 0 = paid20240115 ∧
    (calculateExpirationDate paid20240115 12).month = 0 ∧
    (calculateExpirationDate paid20240115 12).year = 2025 := by
  refine ⟨C8_expiration_algebra.2.1 paid20240115 ⟨by decide, by decide, by decide⟩, ?_, ?_⟩
  · exact (C8_expiration_algebra.2.2 paid20240115 (by decide) (by decide)).1
  · have h := (C8_expiration_algebra.2.2 paid20240115 (by decide) (by decide)).2
    rw [h]
    decide

/-- C1: for every accepted event — recognized event type, present `paidAt`,
valid customer, recognized product — the single mutation the handler issues
(update of the existing account, or the registration payload of a new one)
writes exactly the catalog plan tier and `calculateExpirationDate paidAt
durationMonths`; the model has no clock, so the expiration is a function of
`paidAt` alone. -/
theorem C1_expiration_written
    (ev : String) (c : Customer) (paidAt : DateTime) (pname plan : String)
    (months : Nat) (B : Backend)
    (hev : acceptedType ev) (he : c.email ≠ "") (hn : c.name ≠ "")
    (hp : planMapping pname = some (plan, months)) :
    ((POST (mkBody ev c paidAt pname) B).2.filterMap DirOp.write?) =
      [(plan, calculateExpirationDate paidAt months)] := by
  rcases hev with h | h <;> subst h <;>
    cases hls : B.loginResult.success <;> cases hlu : B.loginResult.user <;>
    cases hrs : B.registerResult.success <;> cases hru : B.registerResult.user <;>
    simp [POST, mkBody, processEvent, hp, he, hn, hls, hlu, hrs, hru, DirOp.write?]

/-- Witness for C1 at the spec's example: `subscription_renewed`, paidAt
2024-01-15T00:00:00Z, product Plano Mensal, existing account — the account
is written plan `mensal` expiring 2024-02-15T00:00:00Z. -/
theorem C1_expiration_written_witness :
    ((POST (mkBody "subscription_renewed" sampleCustomer paid20240115 "Plano Mensal")
        backendExisting).2.filterMap DirOp.write?) =
      [("mensal", ⟨2024, 1, 15, 0, 0, 0, 0⟩)] := by
  have h := C1_expiration_written "subscription_renewed" sampleCustomer paid20240115
    "Plano Mensal" "mensal" 1 backendExisting (Or.inr rfl) (by decide) (by decide) rfl
  rw [h]
  decide

/-- C3: every event whose type is outside `{subscription_created,
subscription_renewed}`, or whose type is recognized but whose `paidAt` is
absent, produces the acknowledged no-op: status 200, `success:true`, no
`userId`, and an empty collaborator trace (no lookup, create or update). -/
theorem C3_acknowledged_noop
    (ev : String) (d : EventData) (B : Backend)
    (h : (ev ≠ "subscription_created" ∧ ev ≠ "subscription_renewed") ∨ d.paidAt = none) :
    POST (some ⟨ev, some d⟩) B =
      (⟨200, true, "Evento " ++ ev ++ " recebido, mas não acionou nenhuma ação.", none⟩, []) := by
  rcases h with ⟨h1, h2⟩ | h1
  · cases hp : d.paidAt <;> simp [POST, hp, h1, h2]
  · simp [POST, h1]

/-- Witness for C3 at the spec's example: a `payment_failed` event is
acknowledged with 200 and an empty trace. -/
theorem C3_acknowledged_noop_witness :
    POST (some ⟨"payment_failed", some ⟨some sampleCustomer, some paid20240115,
        some ⟨some "Plano Mensal"⟩⟩⟩) backendExisting =
      (⟨200, true, "Evento payment_failed recebido, mas não acionou nenhuma ação.", none⟩, []) := by
  exact C3_acknowledged_noop "payment_failed"
    ⟨some sampleCustomer, some paid20240115, some ⟨some "Plano Mensal"⟩⟩ backendExisting
    (Or.inl ⟨by decide, by decide⟩)

/-- C4: the three client-rejection shapes — body without a `data` object; a
recognized paid event whose customer is absent or has empty email or name;
and such an event whose product name has no catalog entry — all yield status
400 with `success:false` and an empty collaborator trace, so no create and
no update is issued. -/
theorem C4_client_rejection
    (body : Option Webhook) (B : Backend)
    (h : (body = none ∨ ∃ ev, body = some ⟨ev, none⟩) ∨
         (∃ ev d p, body = some ⟨ev, some d⟩ ∧ acceptedType ev ∧ d.paidAt = some p ∧
            (d.customer = none ∨ ∃ c, d.customer = some c ∧ (c.email = "" ∨ c.name = ""))) ∨
         (∃ ev d p c, body = some ⟨ev, some d⟩ ∧ acceptedType ev ∧ d.paidAt = some p ∧
            d.customer = some c ∧ c.email ≠ "" ∧ c.name ≠ "" ∧
            (d.product.bind Product.name).bind planMapping = none)) :
    (POST body B).1.status = 400 ∧ (POST body B).1.success = false ∧
    (POST body B).2 = [] := by
  rcases h with (rfl | ⟨ev, rfl⟩) | ⟨ev, d, p, rfl, hev, hpay, hc⟩ |
      ⟨ev, d, p, c, rfl, hev, hpay, hc, he, hn, hplan⟩
  · simp [POST]
  · simp [POST]
  · rcases hc with hc | ⟨c, hc, hec⟩
    · rcases hev with rfl | rfl <;> simp [POST, processEvent, hpay, hc]
    · rcases hev with rfl | rfl <;> rcases hec with hec | hec <;>
        simp [POST, processEvent, hpay, hc, hec]
  · rcases hev with rfl | rfl <;> simp [POST, processEvent, hpay, hc, he, hn, hplan]

/-- Witness for C4 at the spec's example: product `Plano Desconhecido` is
rejected with 400 and no directory interaction. -/
theorem C4_client_rejection_witness :
    (POST (mkBody "subscription_created" sampleCustomer paid20240115 "Plano Desconhecido")
        backendExisting).1.status = 400 ∧
    (POST (mkBody "subscription_created" sampleCustomer paid20240115 "Plano Desconhecido")
        backendExisting).1.success = false ∧
    (POST (mkBody "subscription_created" sampleCustomer paid20240115 "Plano Desconhecido")
        backendExisting).2 = [] := by
  exact C4_client_rejection _ backendExisting
    (Or.inr (Or.inr ⟨"subscription_created", _, paid20240115, sampleCustomer, rfl,
      Or.inl rfl, rfl, rfl, by decide, by decide, by decide⟩))

/-- C5: for every accepted event whose login probe finds an existing account,
the handler issues exactly one update whose patch holds precisely
`isActive=true`, the resolved plan tier and the computed expiration; applying
that patch leaves password, name, phone, taxId, birthDate and role untouched;
no notification operation appears in the trace; and the response is 200 with
`success:true`. -/
theorem C5_update_frame
    (ev : String) (c : Customer) (paidAt : DateTime) (pname plan : String)
    (months : Nat) (B : Backend) (u : Account)
    (hev : acceptedType ev) (he : c.email ≠ "") (hn : c.name ≠ "")
    (hp : planMapping pname = some (plan, months))
    (hs : B.loginResult.success = true) (hu : B.loginResult.user = some u) :
    POST (mkBody ev c paidAt pname) B =
      (⟨200, true, "Assinatura de usuário existente foi renovada/atualizada.", none⟩,
       [DirOp.login c.email "",
        DirOp.update u.id ⟨true, plan, calculateExpirationDate paidAt months⟩]) ∧
    ∀ a : Account,
      (applyPatch a ⟨true, plan, calculateExpirationDate paidAt months⟩).password = a.password ∧
      (applyPatch a ⟨true, plan, calculateExpirationDate paidAt months⟩).nome = a.nome ∧
      (applyPatch a ⟨true, plan, calculateExpirationDate paidAt months⟩).phone = a.phone ∧
      (applyPatch a ⟨true, plan, calculateExpirationDate paidAt months⟩).cpf = a.cpf ∧
      (applyPatch a ⟨true, plan, calculateExpirationDate paidAt months⟩).birthDate = a.birthDate ∧
      (applyPatch a ⟨true, plan, calculateExpirationDate paidAt months⟩).role = a.role := by
  constructor
  · rcases hev with h | h <;> subst h <;>
      simp [POST, mkBody, processEvent, hp, he, hn, hs, hu]
  · intro a
    simp [applyPatch]

/-- Witness for C5 at the spec's example: renewing Plano Mensal for the
existing sample account updates it in place to plan `mensal` expiring
2024-02-15T00:00:00Z with no notification. -/
theorem C5_update_frame_witness :
    POST (mkBody "subscription_renewed" sampleCustomer paid20240115 "Plano Mensal")
        backendExisting =
      (⟨200, true, "Assinatura de usuário existente foi renovada/atualizada.", none⟩,
       [DirOp.login "cliente@exemplo.com" "",
        DirOp.update "u1" ⟨true, "mensal", ⟨2024, 1, 15, 0, 0, 0, 0⟩⟩]) ∧
    (applyPatch sampleAccount ⟨true, "mensal", ⟨2024, 1, 15, 0, 0, 0, 0⟩⟩).password =
      sampleAccount.password := by
  have h := C5_update_frame "subscription_renewed" sampleCustomer paid20240115
    "Plano Mensal" "mensal" 1 backendExisting sampleAccount (Or.inr rfl)
    (by decide) (by decide) rfl rfl rfl
  refine ⟨h.1.trans (by decide), ?_⟩
  exact (h.2 sampleAccount).1

/-- C6: for every accepted event whose login probe finds no existing account
and whose registration succeeds, a welcome-notification dispatch appears in
the trace and the response is 200 with `success:true` and the created
account's id — and the response is the same for every combination of the
notification collaborator's configuration and send outcome, so notification
failure is never propagated. -/
theorem C6_create_notify
    (ev : String) (c : Customer) (paidAt : DateTime) (pname plan : String)
    (months : Nat) (B : Backend) (nu : Account)
    (hev : acceptedType ev) (he : c.email ≠ "") (hn : c.name ≠ "")
    (hp : planMapping pname = some (plan, months))
    (hno : ¬ (B.loginResult.success = true ∧ B.loginResult.user.isSome))
    (hrs : B.registerResult.success = true) (hru : B.registerResult.user = some nu) :
    (POST (mkBody ev c paidAt pname) B).1 =
      ⟨200, true, "Usuário criado com sucesso.", some nu.id⟩ ∧
    (∃ oc, DirOp.sendEmail (newPayload c plan (calculateExpirationDate paidAt months)) oc
        ∈ (POST (mkBody ev c paidAt pname) B).2) ∧
    (∀ e₁ e₂ : Bool,
      (POST (mkBody ev c paidAt pname) { B with emailEnvOk := e₁, emailSendOk := e₂ }).1 =
        (POST (mkBody ev c paidAt pname) B).1) := by
  have hex := existingUser_none B hno
  rcases hev with h | h <;> subst h <;>
    refine ⟨?_, ⟨sendWelcomeEmail B.emailEnvOk B.emailSendOk, ?_⟩, fun e₁ e₂ => ?_⟩ <;>
    simp [POST, mkBody, processEvent, hp, he, hn, hex, hrs, hru, newPayload]

/-- Witness for C6: the sample create event returns 200 with the new id `u9`
and carries a welcome-notification dispatch in its trace. -/
theorem C6_create_notify_witness :
    (POST (mkBody "subscription_created" sampleCustomer paid20240115 "Plano Mensal")
        backendNew).1 = ⟨200, true, "Usuário criado com sucesso.", some "u9"⟩ ∧
    (∃ oc, DirOp.sendEmail (newPayload sampleCustomer "mensal"
        (calculateExpirationDate paid20240115 1)) oc
      ∈ (POST (mkBody "subscription_created" sampleCustomer paid20240115 "Plano Mensal")
          backendNew).2) := by
  have h := C6_create_notify "subscription_created" sampleCustomer paid20240115
    "Plano Mensal" "mensal" 1 backendNew { sampleAccount with id := "u9" }
    (Or.inl rfl) (by decide) (by decide) rfl (by decide) rfl rfl
  exact ⟨h.1, h.2.1⟩

/-- C2 counterexample: a concrete accepted creation event whose register call
fails with a uniqueness-conflict message is answered with status 500 and the
trace ends at the failed registration — no update retry is issued, contrary
to the claim. -/
theorem C2_counterexample :
    (POST (mkBody "subscription_created" sampleCustomer paid20240115 "Plano Mensal")
        backendConflict).1.status = 500 ∧
    (POST (mkBody "subscription_created" sampleCustomer paid20240115 "Plano Mensal")
        backendConflict).1.success = false ∧
    (POST (mkBody "subscription_created" sampleCustomer paid20240115 "Plano Mensal")
        backendConflict).2 =
      [DirOp.login "cliente@exemplo.com" "",
       DirOp.register (newPayload sampleCustomer "mensal" ⟨2024, 1, 15, 0, 0, 0, 0⟩)] := by
  refine ⟨by decide, by decide, by decide⟩

/-- C2 amended: when the creation branch is reached and the register call
fails — for any reason, a uniqueness conflict included, since the handler
never inspects the failure — the response is status 500 with `success:false`
and the trace holds only the login probe and the failed registration: no
update retry is attempted. -/
theorem C2_creation_failure_500
    (ev : String) (c : Customer) (paidAt : DateTime) (pname plan : String)
    (months : Nat) (B : Backend)
    (hev : acceptedType ev) (he : c.email ≠ "") (hn : c.name ≠ "")
    (hp : planMapping pname = some (plan, months))
    (hno : ¬ (B.loginResult.success = true ∧ B.loginResult.user.isSome))
    (hrf : ¬ (B.registerResult.success = true ∧ B.registerResult.user.isSome)) :
    (POST (mkBody ev c paidAt pname) B).1.status = 500 ∧
    (POST (mkBody ev c paidAt pname) B).1.success = false ∧
    (POST (mkBody ev c paidAt pname) B).2 =
      [DirOp.login c.email "",
       DirOp.register (newPayload c plan (calculateExpirationDate paidAt months))] := by
  have hex := existingUser_none B hno
  rcases hev with h | h <;> subst h <;>
    rcases registerResult_cases B hrf with hrs | ⟨hrs, hru⟩
  · simp [POST, mkBody, processEvent, hp, he, hn, hex, hrs, newPayload]
  · simp [POST, mkBody, processEvent, hp, he, hn, hex, hrs, hru, newPayload]
  · simp [POST, mkBody, processEvent, hp, he, hn, hex, hrs, newPayload]
  · simp [POST, mkBody, processEvent, hp, he, hn, hex, hrs, hru, newPayload]

/-- Witness for the amended C2 at the conflict scenario. -/
theorem C2_creation_failure_500_witness :
    (POST (mkBody "subscription_created" sampleCustomer paid20240115 "Plano Mensal")
        backendConflict).1.status = 500 ∧
    (POST (mkBody "subscription_created" sampleCustomer paid20240115 "Plano Mensal")
        backendConflict).1.success = false := by
  have h := C2_creation_failure_500 "subscription_created" sampleCustomer paid20240115
    "Plano Mensal" "mensal" 1 backendConflict (Or.inl rfl) (by decide) (by decide) rfl
    (by decide) (by decide)
  exact ⟨h.1, h.2.1⟩

/-- C9: the handler never performs a dedicated find-by-email directory
lookup on any input; and on every event that reaches the reconciliation
branch, the trace holds the authentication login probe with the customer
email and the empty-string password, and an update is issued if and only if
that login reports success and returns a user. -/
theorem C9_login_probe_decision :
    (∀ (body : Option Webhook) (B : Backend) (e : String),
        DirOp.findByEmail e ∉ (POST body B).2) ∧
    (∀ (ev : String) (c : Customer) (paidAt : DateTime) (pname plan : String)
        (months : Nat) (B : Backend),
      acceptedType ev → c.email ≠ "" → c.name ≠ "" →
      planMapping pname = some (plan, months) →
      DirOp.login c.email "" ∈ (POST (mkBody ev c paidAt pname) B).2 ∧
      ((∃ i p, DirOp.update i p ∈ (POST (mkBody ev c paidAt pname) B).2) ↔
        (B.loginResult.success = true ∧ B.loginResult.user.isSome))) := by
  constructor
  · intro body B e
    rcases body with _ | ⟨ev, data⟩
    · simp [POST]
    rcases data with _ | ⟨cust, pd, prod⟩
    · simp [POST]
    rcases pd with _ | p
    · simp [POST]
    cases hb : (ev == "subscription_created" || ev == "subscription_renewed")
    · simp [POST, hb]
    · simp only [POST, hb]
      rcases cust with _ | c
      · simp [processEvent]
      by_cases hec : (c.email = "" ∨ c.name = "")
      · simp [processEvent, hec]
      · rcases hpl : (prod.bind Product.name).bind planMapping with _ | ⟨plan, months⟩
        · simp [processEvent, hec, hpl]
        · cases hex : (if B.loginResult.success then B.loginResult.user else none) with
          | some u => simp [processEvent, hec, hpl, hex]
          | none =>
            cases hrs : B.registerResult.success <;> cases hru : B.registerResult.user <;>
              simp [processEvent, hec, hpl, hex, hrs, hru]
  · intro ev c paidAt pname plan months B hev he hn hp
    rcases hev with h | h <;> subst h <;>
      cases hls : B.loginResult.success <;> cases hlu : B.loginResult.user <;>
      cases hrs : B.registerResult.success <;> cases hru : B.registerResult.user <;>
      simp [POST, mkBody, processEvent, hp, he, hn, hls, hlu, hrs, hru]

/-- Witness for C9: on the sample renewal with an existing account the trace
starts with the empty-password login probe and holds an update. -/
theorem C9_login_probe_decision_witness :
    DirOp.login "cliente@exemplo.com" ""
      ∈ (POST (mkBody "subscription_renewed" sampleCustomer paid20240115 "Plano Mensal")
          backendExisting).2 ∧
    (∃ i p, DirOp.update i p
      ∈ (POST (mkBody "subscription_renewed" sampleCustomer paid20240115 "Plano Mensal")
          backendExisting).2) := by
  have h := C9_login_probe_decision.2 "subscription_renewed" sampleCustomer paid20240115
    "Plano Mensal" "mensal" 1 backendExisting (Or.inr rfl) (by decide) (by decide) rfl
  exact ⟨h.1, h.2.mpr ⟨rfl, rfl⟩⟩

/-- C10: every account this flow creates carries the fixed plaintext password
123456, role `user`, empty birthDate, and phone and taxId defaulting to the
empty string when absent from the event; and the welcome-notification body
contains the plaintext password and the email verbatim. -/
theorem C10_created_defaults
    (ev : String) (c : Customer) (paidAt : DateTime) (pname plan : String)
    (months : Nat) (B : Backend) (appUrl : String)
    (hev : acceptedType ev) (he : c.email ≠ "") (hn : c.name ≠ "")
    (hp : planMapping pname = some (plan, months))
    (hno : ¬ (B.loginResult.success = true ∧ B.loginResult.user.isSome)) :
    DirOp.register (newPayload c plan (calculateExpirationDate paidAt months))
        ∈ (POST (mkBody ev c paidAt pname) B).2 ∧
    (newPayload c plan (calculateExpirationDate paidAt months)).password = "123456" ∧
    (newPayload c plan (calculateExpirationDate paidAt months)).role = "user" ∧
    (newPayload c plan (calculateExpirationDate paidAt months)).birthDate = "" ∧
    (newPayload c plan (calculateExpirationDate paidAt months)).phone = c.phone.getD "" ∧
    (newPayload c plan (calculateExpirationDate paidAt months)).cpf = c.docNumber.getD "" ∧
    ∃ s₁ s₂ s₃ : String,
      emailBody (newPayload c plan (calculateExpirationDate paidAt months)) appUrl =
        s₁ ++ (newPayload c plan (calculateExpirationDate paidAt months)).email ++ s₂ ++
          (newPayload c plan (calculateExpirationDate paidAt months)).password ++ s₃ := by
  have hex := existingUser_none B hno
  refine ⟨?_, rfl, rfl, rfl, rfl, rfl,
    emailBodyPiece0 ++ (newPayload c plan (calculateExpirationDate paidAt months)).nome ++
      emailBodyPiece1,
    emailBodyPiece2, emailBodyPiece3 ++ appUrl ++ emailBodyPiece4, ?_⟩
  · rcases hev with h | h <;> subst h <;>
      cases hrs : B.registerResult.success <;> cases hru : B.registerResult.user <;>
      simp [POST, mkBody, processEvent, hp, he, hn, hex, hrs, hru, newPayload]
  · simp only [emailBody, String.append_assoc]

/-- Witness for C10: the sample creation registers an account with password
123456 and role `user`, and its welcome-email body decomposes around the
verbatim email and password. -/
theorem C10_created_defaults_witness :
    DirOp.register (newPayload sampleCustomer "mensal"
        (calculateExpirationDate paid20240115 1))
      ∈ (POST (mkBody "subscription_created" sampleCustomer paid20240115 "Plano Mensal")
          backendNew).2 ∧
    (newPayload sampleCustomer "mensal" (calculateExpirationDate paid20240115 1)).password =
      "123456" ∧
    ∃ s₁ s₂ s₃ : String,
      emailBody (newPayload sampleCustomer "mensal" (calculateExpirationDate paid20240115 1))
          "http://localhost:3000" =
        s₁ ++ "cliente@exemplo.com" ++ s₂ ++ "123456" ++ s₃ := by
  have h := C10_created_defaults "subscription_created" sampleCustomer paid20240115
    "Plano Mensal" "mensal" 1 backendNew "http://localhost:3000"
    (Or.inl rfl) (by decide) (by decide) rfl (by decide)
  exact ⟨h.1, h.2.1, h.2.2.2.2.2.2⟩

end Enem
